import Mathlib

/-!
Shallow embedding of the email-automation repository's core logic:

* the retrying forwarder — the 3-attempt retry loop wrapped around the
  outbound `fetch` calls in `src/app/api/email-preview/route.ts` (`GET`)
  and the send-email route (`POST`);
* the request bodies those routes forward to the external backend
  (`/generate` and `/send`);
* the batch sequencer `handleBatchSend` of the demo page, which drives
  the two routes across the selected leads one at a time, tallying
  per-lead outcomes.

Machine numbers from the JavaScript side are modelled as `ℚ` (the query
parameters this code handles are short decimal numerals, on which JS
number parsing and printing are exact), lead identifiers as `Nat`, and
each outbound HTTP attempt as a value of `FetchResult`.
-/

namespace EmailAutomation

/-! ### The retrying forwarder

Both API routes run the same loop: up to 3 `fetch` attempts, breaking as
soon as a response with a success status arrives, remembering the last
error otherwise, and sleeping 1000 ms at the end of every failed
iteration (also after the third failure).  After the loop the route
throws the remembered error unless an OK response was obtained, and then
parses that response's JSON body. -/

/-- One backend attempt as the route observes it: a success-status
response carrying the result of parsing its body, a non-success HTTP
status (with status text and error body text), or a transport-level
error thrown by `fetch`. -/
inductive FetchResult (α : Type) where
  | ok (body : Except String α)
  | httpError (status : Nat) (statusText : String) (bodyText : String)
  | transportError (msg : String)

/-- The error the loop records for a failed attempt (`lastError` in the
source): the formatted message for a non-success status, the thrown
message for a transport error. -/
def fetchFailure {α : Type} : FetchResult α → Option String
  | .ok _ => none
  | .httpError status statusText bodyText =>
      some ("Backend API error: " ++ toString status ++ " " ++ statusText ++ " - " ++ bodyText)
  | .transportError msg => some msg

/-- Whether an attempt failed (did not produce a success-status response). -/
def isFailedAttempt {α : Type} : FetchResult α → Bool
  | .ok _ => false
  | .httpError _ _ _ => true
  | .transportError _ => true

/-- Observable outcome of the retry loop proper: how many attempts ran,
how many 1-second delays were slept, the body of the success-status
response the loop broke on (if any), and the remembered last error. -/
structure LoopOut (α : Type) where
  attempts : Nat
  delays : Nat
  okBody : Option (Except String α)
  lastError : Option String

/-- The retry loop with `fuel` iterations remaining, currently at attempt
index `i` (so `i` failed attempts, and `i` delays, lie behind us), with
`lastErr` the error remembered from the previous iteration. -/
def retryLoopAux {α : Type} (backend : Nat → FetchResult α) :
    Nat → Nat → Option String → LoopOut α
  | 0, i, lastErr => { attempts := i, delays := i, okBody := none, lastError := lastErr }
  | fuel + 1, i, _ =>
    match backend i with
    | .ok body => { attempts := i + 1, delays := i, okBody := some body, lastError := none }
    | r => retryLoopAux backend fuel (i + 1) (fetchFailure r)

/-- The `for (let i = 0; i < 3; i++)` retry loop of both routes. -/
def retryLoop {α : Type} (backend : Nat → FetchResult α) : LoopOut α :=
  retryLoopAux backend 3 0 none

/-- The whole forwarding step: the retry loop, followed by the
`if (!response || !response.ok) throw lastError ...` check and the JSON
parse of the successful response.  Returns (attempts, delays, overall
result). -/
def retryFetch {α : Type} (backend : Nat → FetchResult α) :
    Nat × Nat × Except String α :=
  let out := retryLoop backend
  match out.okBody with
  | some body => (out.attempts, out.delays, body)
  | none => (out.attempts, out.delays,
      Except.error (out.lastError.getD "Backend request failed after multiple retries"))

/-! ### The email-preview route (`GET /api/email-preview`) -/

/-- Value of a digit string. -/
def digitsVal (cs : List Char) : Nat :=
  cs.foldl (fun acc c => acc * 10 + (c.toNat - 48)) 0

/-- JS `Number(...)` on an unsigned plain decimal numeral, given as its
character list: digits with an optional single dot (at least one digit
overall; a second dot, or any non-digit, yields `NaN` = `none`). -/
def jsUnsigned (cs : List Char) : Option ℚ :=
  match cs.span (fun c => c != '.') with
  | (ip, []) =>
      if !ip.isEmpty && ip.all Char.isDigit then some ((digitsVal ip : ℚ)) else none
  | (ip, _ :: fp) =>
      if (!ip.isEmpty || !fp.isEmpty) && ip.all Char.isDigit && fp.all Char.isDigit then
        some ((digitsVal ip : ℚ) + (digitsVal fp : ℚ) / (10 : ℚ) ^ fp.length)
      else none

/-- JS `Number(...)` on the plain decimal numerals this route receives
(optional sign, digits, optional fractional part; the empty string
parses to 0).  `none` models `NaN`; numeral forms this code never
receives (exponents, hex, infinities) are out of scope of the model. -/
def jsNumber (s : String) : Option ℚ :=
  match s.data with
  | [] => some 0
  | '-' :: cs => (jsUnsigned cs).map (fun q => -q)
  | '+' :: cs => jsUnsigned cs
  | cs => jsUnsigned cs

/-- JS `Math.min(x, y)` with `NaN` (`none`) propagating. -/
def jsMin (x : Option ℚ) (y : ℚ) : Option ℚ :=
  match x with
  | none => none
  | some q => some (if q ≤ y then q else y)

/-- The mock lead object the route builds from the `id` query parameter. -/
structure GenLead where
  id : String
  first_name : String
  last_name : String
  zip : String
  insight : String
  business_specialization : String
deriving DecidableEq

def mockLead (id : String) : GenLead :=
  { id := id,
    first_name := if id = "2" then "Sarah" else if id = "3" then "Carlos" else "John",
    last_name := "Demo",
    zip := "90210",
    insight := "recently searched for coverage options",
    business_specialization := "Life insurance for new families" }

/-- The request body the route forwards to `POST {backend}/generate`.
`variants` and `temperature` are JS numbers (`none` = `NaN`). -/
structure GenRequestBody where
  lead : GenLead
  tone : String
  variants : Option ℚ
  temperature : Option ℚ
deriving DecidableEq

/-- Construction of the backend request body from the query parameters
(`none` = parameter absent, handled by the route's `?? default`):
`variants` is `Math.min(Number(variants ?? "3"), 5)`. -/
def previewBackendBody (idParam toneParam variantsParam creativityParam : Option String) :
    GenRequestBody :=
  { lead := mockLead (idParam.getD "1"),
    tone := toneParam.getD "Friendly",
    variants := jsMin (jsNumber (variantsParam.getD "3")) 5,
    temperature := jsNumber (creativityParam.getD "0.6") }

/-- One AI-generated variant as the backend returns it. -/
structure GenVariant where
  id : String
  subject : String
  body : String
  used_tokens : List String
deriving DecidableEq

/-- Parsed body of a successful `/generate` response. -/
structure GenResponse where
  variants : List GenVariant
  model : Option String
deriving DecidableEq

/-- The JSON payload of a successful route response. -/
structure PreviewOk where
  variants : List GenVariant
  rationale : String
  subject_suggestions : List String
  model : String
deriving DecidableEq

/-- Result of the route: 200 with the formatted payload, or the 500
`{ error: "failed to fetch from backend", details }` response. -/
inductive PreviewRouteResult where
  | ok (r : PreviewOk)
  | error (details : String)
deriving DecidableEq

/-- The rationale string the route builds. -/
def rationaleFor (firstName tone : String) : String :=
  "This message uses " ++ firstName ++
    "'s recent search intent and local context to establish relevance, offers a low-friction CTA (10-min call), and matches a " ++
    tone.toLower ++ " tone."

/-- `data.model || "google/gemma-2-27b-it:free"` (JS `||`: an absent or
empty model string falls back to the default). -/
def modelOrDefault (m : Option String) : String :=
  match m with
  | some s => if s = "" then "google/gemma-2-27b-it:free" else s
  | none => "google/gemma-2-27b-it:free"

/-- The `GET` handler of `src/app/api/email-preview/route.ts`, with the
backend abstracted as the per-attempt result of the `/generate` fetch.
Returns the request body it forwards to the backend together with the
route result. -/
def previewGET (backend : Nat → FetchResult GenResponse)
    (idParam toneParam variantsParam creativityParam : Option String) :
    GenRequestBody × PreviewRouteResult :=
  (previewBackendBody idParam toneParam variantsParam creativityParam,
   match (retryFetch backend).2.2 with
   | Except.error e => PreviewRouteResult.error e
   | Except.ok data =>
       PreviewRouteResult.ok
         { variants := data.variants,
           rationale := rationaleFor (mockLead (idParam.getD "1")).first_name
             (toneParam.getD "Friendly"),
           subject_suggestions := (data.variants.take 3).map (fun v => v.subject),
           model := modelOrDefault data.model })

/-! ### The send-email route (`POST /api/send-email`) -/

structure ConsentSnapshot where
  source : String
  captured_at : String
  exact_text : String
deriving DecidableEq

/-- The incoming request body `{ leadId, variantId, subject, body, consent_snapshot }`. -/
structure SendEmailRequest where
  leadId : Nat
  variantId : String
  subject : String
  body : String
  consent_snapshot : ConsentSnapshot
deriving DecidableEq

/-- The body the route forwards to `POST {backend}/send`. -/
structure SendBackendBody where
  recipient_email : String
  subject : String
  body : String
  consent_snapshot : ConsentSnapshot
deriving DecidableEq

/-- Construction of the forwarded body: `recipient_email` is the
hardcoded constant, the rest is copied from the incoming request. -/
def sendBackendBody (data : SendEmailRequest) : SendBackendBody :=
  { recipient_email := "test@example.com",
    subject := data.subject,
    body := data.body,
    consent_snapshot := data.consent_snapshot }

/-- The backend-defined `/send` response payload as far as the client
inspects it: optional `ok` boolean and optional `status` string. -/
structure SendPayload where
  ok : Option Bool
  status : Option String
deriving DecidableEq

/-- Result of the send-email route: passthrough of the backend payload
on success, or the 500 `{ ok: false, error, details }` response. -/
inductive SendRouteResult where
  | ok (payload : SendPayload)
  | error (details : String)
deriving DecidableEq

/-- The `POST` handler of the send-email route: builds the forwarded
body, runs the retry loop against `/send`, and returns the forwarded
body together with the route result. -/
def sendEmailPOST (backend : Nat → FetchResult SendPayload) (data : SendEmailRequest) :
    SendBackendBody × SendRouteResult :=
  (sendBackendBody data,
   match (retryFetch backend).2.2 with
   | Except.ok p => SendRouteResult.ok p
   | Except.error e => SendRouteResult.error e)

/-! ### The batch sequencer (`handleBatchSend` in the demo page)

`handleBatchSend` iterates the selected leads in the order of the lead
list, and for each one calls the email-preview route (with `variants=1`)
and, if that yielded at least one variant, the send-email route; it
classifies the outcome, updates the lead's status in place, updates the
progress marker, and finally publishes the tally.  The two routes are
abstracted as an environment giving, per lead id, the parsed preview
response (`none` = non-OK response or unparseable body) and the parsed
send response (`none` = non-OK response or unparseable body). -/

/-- A lead row of the demo page. -/
structure Lead where
  id : Nat
  first_name : String
  last_name : String
  age : Option Nat
  zip : Option String
  interest : Option String
  email : String
  insight : Option String
  status : Option String
deriving DecidableEq

/-- The environment a batch run observes: per lead id, the outcome of
the `/api/email-preview` call and of the `/api/send-email` call. -/
structure BatchEnv where
  previewOf : Nat → Option (List GenVariant)
  sendOf : Nat → Option SendPayload

/-- JS truthiness check `sendData.status && sendData.status !== "success"`:
a string is truthy exactly when it is non-empty. -/
def statusSignalsFailure : Option String → Bool
  | some st => st != "" && st != "success"
  | none => false

/-- The send classification of `handleBatchSend`: the attempt succeeded
iff the transport call succeeded (`sendRes.ok`, body parsed) and
`sendData.ok === false` does not hold and the truthy-status check does
not fire. -/
def sendSuccess : Option SendPayload → Bool
  | none => false
  | some p => !(p.ok == some false) && !(statusSignalsFailure p.status)

/-- Whether a lead's generate-then-send pass succeeds: generation must
return an OK response with at least one variant, then the send result is
classified by `sendSuccess`. -/
def leadOutcome (env : BatchEnv) (l : Lead) : Bool :=
  match env.previewOf l.id with
  | none => false
  | some [] => false
  | some (_ :: _) => sendSuccess (env.sendOf l.id)

/-- The status string recorded for a lead. -/
def leadStatus (env : BatchEnv) (l : Lead) : String :=
  if leadOutcome env l then "sent" else "failed"

/-- Network calls the sequencer issues, in order. -/
inductive BatchEvent where
  | genCall (leadId : Nat)
  | sendCall (leadId : Nat)
deriving DecidableEq

/-- The calls issued while processing one lead: always the generate
call; the send call only when generation returned a non-empty variant
list. -/
def leadEvents (env : BatchEnv) (l : Lead) : List BatchEvent :=
  match env.previewOf l.id with
  | none => [BatchEvent.genCall l.id]
  | some [] => [BatchEvent.genCall l.id]
  | some (_ :: _) => [BatchEvent.genCall l.id, BatchEvent.sendCall l.id]

/-- `${lead.first_name} ${lead.last_name}` as shown in the progress marker. -/
def leadName (l : Lead) : String :=
  l.first_name ++ " " ++ l.last_name

/-- The `setLeads(prev.map(l => l.id === lead.id ? {...l, status} : l))`
status update. -/
def markStatus (ls : List Lead) (i : Nat) (st : String) : List Lead :=
  ls.map (fun l => if l.id = i then { l with status := some st } else l)

/-- A `setBatchProgress` payload. -/
structure BatchProgress where
  total : Nat
  completed : Nat
  failed : Nat
  current : Option String
deriving DecidableEq

/-- The final `setBatchResults` tally. -/
structure BatchResults where
  sent : Nat
  failed : Nat
  total : Nat
deriving DecidableEq

/-- The progress shown before processing a lead: counters so far and the
lead's name as the current marker. -/
def progressPre (total sent failed : Nat) (lead : Lead) : BatchProgress :=
  { total := total, completed := sent, failed := failed, current := some (leadName lead) }

/-- The progress shown after processing a lead: updated counters and, as
the current marker, the next lead's name if one remains. -/
def progressPost (total sent failed : Nat) (rest : List Lead) : BatchProgress :=
  { total := total, completed := sent, failed := failed, current := rest.head?.map leadName }

/-- Accumulated observables of the batch loop. -/
structure BatchRun where
  leads : List Lead
  sent : Nat
  failed : Nat
  outcomes : List (Nat × String)
  events : List BatchEvent
  progressTrace : List BatchProgress
deriving DecidableEq

/-- The `for` loop of `handleBatchSend`: processes the remaining
selected leads against the current lead list and counters. -/
def runLeads (env : BatchEnv) (total : Nat) :
    List Lead → Nat → Nat → List Lead → BatchRun
  | master, sent, failed, [] =>
      { leads := master, sent := sent, failed := failed,
        outcomes := [], events := [], progressTrace := [] }
  | master, sent, failed, lead :: rest =>
      let sent' := if leadOutcome env lead then sent + 1 else sent
      let failed' := if leadOutcome env lead then failed else failed + 1
      let r := runLeads env total (markStatus master lead.id (leadStatus env lead)) sent' failed' rest
      { leads := r.leads, sent := r.sent, failed := r.failed,
        outcomes := (lead.id, leadStatus env lead) :: r.outcomes,
        events := leadEvents env lead ++ r.events,
        progressTrace := progressPre total sent failed lead
          :: progressPost total sent' failed' rest :: r.progressTrace }

/-- The UI state `handleBatchSend` reads and writes. -/
structure BatchState where
  leads : List Lead
  selectedLeadIds : List Nat
  batchSending : Bool
  batchProgress : Option BatchProgress
  batchResults : Option BatchResults
  toast : Option String
deriving DecidableEq

/-- The observable trace of one `handleBatchSend` call. -/
structure BatchTrace where
  events : List BatchEvent
  outcomes : List (Nat × String)
  progressTrace : List BatchProgress
deriving DecidableEq

/-- The final toast: `Successfully sent N email(s)[, M failed]`. -/
def successToast (sent failed : Nat) : String :=
  "Successfully sent " ++ toString sent ++ " email" ++ (if sent > 1 then "s" else "")
    ++ (if failed > 0 then ", " ++ toString failed ++ " failed" else "")

/-- The non-empty-selection path of `handleBatchSend`: filter the lead
list down to the selected leads, run the loop, and publish the tally,
clearing progress and selection and showing the final toast. -/
def runBatch (env : BatchEnv) (s : BatchState) : BatchState × BatchTrace :=
  let selectedLeads := s.leads.filter (fun l => s.selectedLeadIds.contains l.id)
  let r := runLeads env selectedLeads.length s.leads 0 0 selectedLeads
  ({ leads := r.leads,
     selectedLeadIds := [],
     batchSending := false,
     batchProgress := none,
     batchResults := some { sent := r.sent, failed := r.failed, total := selectedLeads.length },
     toast := some (if r.sent > 0 then successToast r.sent r.failed
                    else "All emails failed to send") },
   { events := r.events, outcomes := r.outcomes, progressTrace := r.progressTrace })

/-- `handleBatchSend`: early return with an error toast when no lead is
selected; otherwise run the batch. -/
def handleBatchSend (env : BatchEnv) (s : BatchState) : BatchState × BatchTrace :=
  if s.selectedLeadIds.length = 0 then
    ({ s with toast := some "Please select at least one lead" },
     { events := [], outcomes := [], progressTrace := [] })
  else runBatch env s

/-! ### Derived forms and claim-side classifiers -/

/-- The per-element effect of one processed lead on the master lead
list: `setLeads` updates the status of every row whose id matches. -/
def applyLead (env : BatchEnv) (p : Lead) (cur : Lead) : Lead :=
  if cur.id = p.id then { cur with status := some (leadStatus env p) } else cur

/-- The aggregate effect of a whole selected-leads pass on one row of
the master lead list. -/
def applySel (env : BatchEnv) : List Lead → Lead → Lead
  | [], a => a
  | p :: rest, a => applySel env rest (applyLead env p a)

/-- Modelled from the claim's words (C5): the payload "signals failure"
when it has an `ok` field equal to false, or a `status` field that is
present and not equal to `"success"`. -/
def claimSignalsFailure (p : SendPayload) : Bool :=
  p.ok == some false ||
    (match p.status with
     | some st => st != "success"
     | none => false)

/-- The amended classifier (C5): an `ok` field equal to false, or a
`status` field that is present, non-empty, and not equal to
`"success"`. -/
def amendedSignalsFailure (p : SendPayload) : Bool :=
  p.ok == some false ||
    (match p.status with
     | some st => st != "" && st != "success"
     | none => false)

/-! ### Concrete data used by witnesses -/

/-- A lead row with nothing selected, and a dead backend. -/
def idleLead : Lead :=
  { id := 1, first_name := "John", last_name := "Doe", age := some 35,
    zip := some "90210", interest := some "Life Insurance",
    email := "john@example.com",
    insight := some "Recently searched for coverage options", status := none }

def idleEnv : BatchEnv :=
  { previewOf := fun _ => none, sendOf := fun _ => none }

def idleState : BatchState :=
  { leads := [idleLead], selectedLeadIds := [], batchSending := false,
    batchProgress := none, batchResults := none, toast := none }

/-- The two leads of the C5 concrete scenario (rows 1 and 2 of the mock
lead source). -/
def scenarioLead1 : Lead :=
  { id := 1, first_name := "John", last_name := "Doe", age := some 35,
    zip := some "90210", interest := some "Life Insurance",
    email := "john@example.com",
    insight := some "Recently searched for coverage options", status := none }

def scenarioLead2 : Lead :=
  { id := 2, first_name := "Sarah", last_name := "Smith", age := some 42,
    zip := some "10011", interest := some "Retirement Planning",
    email := "sarah@example.com",
    insight := some "Interested in family protection", status := none }

def scenarioVariant : GenVariant :=
  { id := "v1", subject := "Hello", body := "Hi there", used_tokens := [] }

/-- C5 scenario backend: `/generate` always yields 1 variant, `/send`
succeeds for id 1 and returns `{ok:false}` for id 2. -/
def scenarioEnv : BatchEnv :=
  { previewOf := fun _ => some [scenarioVariant],
    sendOf := fun i => if i = 2 then some { ok := some false, status := none }
                       else some { ok := some true, status := none } }

def scenarioState : BatchState :=
  { leads := [scenarioLead1, scenarioLead2], selectedLeadIds := [1, 2],
    batchSending := false, batchProgress := none, batchResults := none,
    toast := none }

def scenarioLead3 : Lead :=
  { id := 3, first_name := "Carlos", last_name := "Diaz", age := some 30,
    zip := some "33101", interest := some "New parent coverage",
    email := "carlos@example.com",
    insight := some "New parent, looking to secure family", status := none }

/-- C6 witness backends: in `frameEnvDrop` lead 2's generation fails,
in `frameEnvOk` every generation succeeds; sends always succeed. -/
def frameEnvDrop : BatchEnv :=
  { previewOf := fun i => if i = 2 then none else some [scenarioVariant],
    sendOf := fun _ => some { ok := some true, status := none } }

def frameEnvOk : BatchEnv :=
  { previewOf := fun _ => some [scenarioVariant],
    sendOf := fun _ => some { ok := some true, status := none } }

/-- C6 witness state: leads A, B, C all selected. -/
def frameState : BatchState :=
  { leads := [scenarioLead1, scenarioLead2, scenarioLead3],
    selectedLeadIds := [1, 2, 3], batchSending := false,
    batchProgress := none, batchResults := none, toast := none }

/-! ### Lemmas about the retry loop -/

theorem retryLoopAux_ok {α : Type} (backend : Nat → FetchResult α) (fuel i : Nat)
    (le : Option String) (body : Except String α) (h : backend i = FetchResult.ok body) :
    retryLoopAux backend (fuel + 1) i le
      = { attempts := i + 1, delays := i, okBody := some body, lastError := none } := by
  simp [retryLoopAux, h]

theorem retryLoopAux_fail {α : Type} (backend : Nat → FetchResult α) (fuel i : Nat)
    (le : Option String) (h : isFailedAttempt (backend i) = true) :
    retryLoopAux backend (fuel + 1) i le
      = retryLoopAux backend fuel (i + 1) (fetchFailure (backend i)) := by
  cases hb : backend i with
  | ok body => rw [hb] at h; simp [isFailedAttempt] at h
  | httpError st stx bt => simp [retryLoopAux, hb]
  | transportError m => simp [retryLoopAux, hb]

/-- **C2**: if the backend fails the first 2 attempts and succeeds on the
3rd with a parseable payload, the forwarder succeeds with the 3rd
attempt's parsed payload, makes exactly 3 attempts, and sleeps exactly 2
inter-attempt delays (no further attempt follows the success). -/
theorem retryFetch_success_on_third_attempt {α : Type} (backend : Nat → FetchResult α) (p : α)
    (h0 : isFailedAttempt (backend 0) = true) (h1 : isFailedAttempt (backend 1) = true)
    (h2 : backend 2 = FetchResult.ok (Except.ok p)) :
    retryFetch backend = (3, 2, Except.ok p) := by
  have e1 : retryLoopAux backend 3 0 none
      = retryLoopAux backend 2 1 (fetchFailure (backend 0)) :=
    retryLoopAux_fail backend 2 0 none h0
  have e2 : retryLoopAux backend 2 1 (fetchFailure (backend 0))
      = retryLoopAux backend 1 2 (fetchFailure (backend 1)) :=
    retryLoopAux_fail backend 1 1 _ h1
  have e3 : retryLoopAux backend 1 2 (fetchFailure (backend 1))
      = { attempts := 3, delays := 2, okBody := some (Except.ok p), lastError := none } :=
    retryLoopAux_ok backend 0 2 _ _ h2
  simp only [retryFetch, retryLoop, e1, e2, e3]

/-- Witness for C2: a backend unreachable on attempts 0 and 1 and
answering on attempt 2. -/
theorem retryFetch_success_on_third_attempt_witness :
    retryFetch (fun i => if i < 2 then FetchResult.transportError "backend unreachable"
                         else FetchResult.ok (Except.ok (0 : Nat)))
      = (3, 2, Except.ok 0) :=
  retryFetch_success_on_third_attempt _ 0 (by decide) (by decide) rfl

/-- **C3**: if the backend fails on all 3 attempts, the forwarder fails
after exactly 3 attempts (never more) and the single surfaced failure
carries the last observed error; a delay is slept after every failed
attempt, 3 in total (so in particular there is a delay between any two
consecutive attempts, and a full failure includes at least 2 delay
intervals). -/
theorem retryFetch_all_attempts_fail {α : Type} (backend : Nat → FetchResult α)
    (h0 : isFailedAttempt (backend 0) = true) (h1 : isFailedAttempt (backend 1) = true)
    (h2 : isFailedAttempt (backend 2) = true) :
    retryFetch backend
      = (3, 3, Except.error
          ((fetchFailure (backend 2)).getD "Backend request failed after multiple retries")) := by
  have e1 : retryLoopAux backend 3 0 none
      = retryLoopAux backend 2 1 (fetchFailure (backend 0)) :=
    retryLoopAux_fail backend 2 0 none h0
  have e2 : retryLoopAux backend 2 1 (fetchFailure (backend 0))
      = retryLoopAux backend 1 2 (fetchFailure (backend 1)) :=
    retryLoopAux_fail backend 1 1 _ h1
  have e3 : retryLoopAux backend 1 2 (fetchFailure (backend 1))
      = retryLoopAux backend 0 3 (fetchFailure (backend 2)) :=
    retryLoopAux_fail backend 0 2 _ h2
  have e4 : retryLoopAux backend 0 3 (fetchFailure (backend 2))
      = { attempts := 3, delays := 3, okBody := none,
          lastError := fetchFailure (backend 2) } := rfl
  simp only [retryFetch, retryLoop, e1, e2, e3, e4]

/-- Witness for C3: a backend answering 500 on every attempt. -/
theorem retryFetch_all_attempts_fail_witness :
    retryFetch (fun _ => (FetchResult.httpError 500 "Internal Server Error" "boom" :
        FetchResult Nat))
      = (3, 3, Except.error
          ((fetchFailure ((fun _ => (FetchResult.httpError 500 "Internal Server Error" "boom" :
              FetchResult Nat)) 2)).getD "Backend request failed after multiple retries")) :=
  retryFetch_all_attempts_fail _ (by decide) (by decide) (by decide)

/-- **C7**: the body forwarded to the backend `/send` endpoint always has
`recipient_email` equal to the constant `"test@example.com"`, whatever
the incoming request contains; two requests differing in lead identity
(or anything else) produce identical `recipient_email` fields. -/
theorem sendEmail_recipient_constant (d d1 d2 : SendEmailRequest) :
    (sendBackendBody d).recipient_email = "test@example.com" ∧
    (sendBackendBody d1).recipient_email = (sendBackendBody d2).recipient_email :=
  ⟨rfl, rfl⟩

/-- **C9**: the email-preview route is deterministic in its environment:
two runs with identical query parameters against backends that answer
identically per attempt produce identical results (hence the same
variants, rationale, subject_suggestions and model fields). -/
theorem previewGET_deterministic (b1 b2 : Nat → FetchResult GenResponse)
    (idParam toneParam variantsParam creativityParam : Option String)
    (h : ∀ n, b1 n = b2 n) :
    previewGET b1 idParam toneParam variantsParam creativityParam
      = previewGET b2 idParam toneParam variantsParam creativityParam := by
  have hb : b1 = b2 := funext h
  rw [hb]

/-- Witness for C9: two runs against the same one-variant stub. -/
theorem previewGET_deterministic_witness :
    previewGET (fun _ => FetchResult.ok (Except.ok { variants := [], model := none }))
        none none none none
      = previewGET (fun _ => FetchResult.ok (Except.ok { variants := [], model := none }))
        none none none none :=
  previewGET_deterministic _ _ none none none none (fun _ => rfl)

/-- **C10**: with an empty selection, `handleBatchSend` returns early
with only an error toast: no generate or send call is issued, and the
lead list, lead statuses, batch progress and batch results are all left
unchanged. -/
theorem handleBatchSend_empty_selection (env : BatchEnv) (s : BatchState)
    (h : s.selectedLeadIds = []) :
    handleBatchSend env s
      = ({ s with toast := some "Please select at least one lead" },
         { events := [], outcomes := [], progressTrace := [] }) := by
  simp [handleBatchSend, h]

/-- Witness for C10. -/
theorem handleBatchSend_empty_selection_witness :
    handleBatchSend idleEnv idleState
      = ({ idleState with toast := some "Please select at least one lead" },
         { events := [], outcomes := [], progressTrace := [] }) :=
  handleBatchSend_empty_selection idleEnv idleState rfl

/-! ### Lemmas about the batch loop -/

theorem runLeads_tally (env : BatchEnv) (total : Nat) :
    ∀ (sel master : List Lead) (sent failed : Nat),
      (runLeads env total master sent failed sel).sent
          + (runLeads env total master sent failed sel).failed
        = sent + failed + sel.length := by
  intro sel
  induction sel with
  | nil => intro master sent failed; simp [runLeads]
  | cons lead rest ih =>
      intro master sent failed
      cases h : leadOutcome env lead <;> simp [runLeads, h, ih] <;> omega

theorem runLeads_outcomes (env : BatchEnv) (total : Nat) :
    ∀ (sel master : List Lead) (sent failed : Nat),
      (runLeads env total master sent failed sel).outcomes
        = sel.map (fun l => (l.id, leadStatus env l)) := by
  intro sel
  induction sel with
  | nil => intro master sent failed; simp [runLeads]
  | cons lead rest ih => intro master sent failed; simp [runLeads, ih]

theorem runLeads_events (env : BatchEnv) (total : Nat) :
    ∀ (sel master : List Lead) (sent failed : Nat),
      (runLeads env total master sent failed sel).events
        = sel.flatMap (leadEvents env) := by
  intro sel
  induction sel with
  | nil => intro master sent failed; simp [runLeads]
  | cons lead rest ih => intro master sent failed; simp [runLeads, ih]

theorem markStatus_eq_map (env : BatchEnv) (m : List Lead) (p : Lead) :
    markStatus m p.id (leadStatus env p) = m.map (applyLead env p) := rfl

theorem runLeads_leads (env : BatchEnv) (total : Nat) :
    ∀ (sel master : List Lead) (sent failed : Nat),
      (runLeads env total master sent failed sel).leads
        = master.map (applySel env sel) := by
  intro sel
  induction sel with
  | nil =>
      intro master sent failed
      simp [runLeads, applySel]
  | cons lead rest ih =>
      intro master sent failed
      simp only [runLeads, ih, markStatus_eq_map, List.map_map]
      rfl

theorem applyLead_id (env : BatchEnv) (p cur : Lead) :
    (applyLead env p cur).id = cur.id := by
  unfold applyLead
  split <;> rfl

theorem applySel_id (env : BatchEnv) :
    ∀ (sel : List Lead) (a : Lead), (applySel env sel a).id = a.id := by
  intro sel
  induction sel with
  | nil => intro a; rfl
  | cons p rest ih => intro a; rw [applySel, ih, applyLead_id]

theorem leadOutcome_congr (env1 env2 : BatchEnv) (l : Lead)
    (hp : env1.previewOf l.id = env2.previewOf l.id)
    (hs : env1.sendOf l.id = env2.sendOf l.id) :
    leadOutcome env1 l = leadOutcome env2 l := by
  unfold leadOutcome
  rw [hp, hs]

theorem leadStatus_congr (env1 env2 : BatchEnv) (l : Lead)
    (hp : env1.previewOf l.id = env2.previewOf l.id)
    (hs : env1.sendOf l.id = env2.sendOf l.id) :
    leadStatus env1 l = leadStatus env2 l := by
  unfold leadStatus
  rw [leadOutcome_congr env1 env2 l hp hs]

theorem applySel_frame (env1 env2 : BatchEnv) (X : Nat)
    (henv : ∀ y, y ≠ X → env1.previewOf y = env2.previewOf y ∧ env1.sendOf y = env2.sendOf y) :
    ∀ (sel : List Lead) (a : Lead), a.id ≠ X → applySel env1 sel a = applySel env2 sel a := by
  intro sel
  induction sel with
  | nil => intro a _; rfl
  | cons p rest ih =>
      intro a ha
      rw [applySel, applySel]
      by_cases hpa : a.id = p.id
      · have hpX : p.id ≠ X := hpa ▸ ha
        have hupd : applyLead env1 p a = applyLead env2 p a := by
          unfold applyLead
          rw [leadStatus_congr env1 env2 p (henv p.id hpX).1 (henv p.id hpX).2]
        rw [hupd]
        exact ih _ (by rw [applyLead_id]; exact ha)
      · have hupd1 : applyLead env1 p a = a := by unfold applyLead; rw [if_neg hpa]
        have hupd2 : applyLead env2 p a = a := by unfold applyLead; rw [if_neg hpa]
        rw [hupd1, hupd2]
        exact ih a ha

theorem applySel_untouched (env : BatchEnv) :
    ∀ (sel : List Lead) (a : Lead), a.id ∉ sel.map Lead.id → applySel env sel a = a := by
  intro sel
  induction sel with
  | nil => intro a _; rfl
  | cons p rest ih =>
      intro a ha
      have h1 : a.id ≠ p.id ∧ a.id ∉ rest.map Lead.id := by
        constructor
        · intro hc; exact ha (by simp [hc])
        · intro hc; exact ha (by simp [hc])
      rw [applySel]
      have hupd : applyLead env p a = a := by unfold applyLead; rw [if_neg h1.1]
      rw [hupd]
      exact ih a h1.2

theorem forall2_map_map {α β : Type} {R : β → β → Prop} (f g : α → β) :
    ∀ L : List α, (∀ a ∈ L, R (f a) (g a)) → List.Forall₂ R (L.map f) (L.map g) := by
  intro L
  induction L with
  | nil => intro _; exact List.Forall₂.nil
  | cons a L ih =>
      intro h
      exact List.Forall₂.cons (h a (by simp)) (ih (fun b hb => h b (by simp [hb])))

theorem forall2_id_map {α : Type} {R : α → α → Prop} (g : α → α) :
    ∀ L : List α, (∀ a ∈ L, R a (g a)) → List.Forall₂ R L (L.map g) := by
  intro L
  induction L with
  | nil => intro _; exact List.Forall₂.nil
  | cons a L ih =>
      intro h
      exact List.Forall₂.cons (h a (by simp)) (ih (fun b hb => h b (by simp [hb])))

theorem runBatch_eq (env : BatchEnv) (s : BatchState)
    (h : ¬ s.selectedLeadIds.length = 0) :
    handleBatchSend env s = runBatch env s := by
  unfold handleBatchSend
  rw [if_neg h]

/-- **C1**: when a batch runs over the selected leads, the published
tally satisfies `sent + failed = total` and `total` equals the number of
selected leads: every processed lead lands in exactly one of the two
counters. -/
theorem handleBatchSend_tally (env : BatchEnv) (s : BatchState)
    (h : s.selectedLeadIds ≠ []) :
    ∃ res : BatchResults,
      (handleBatchSend env s).1.batchResults = some res ∧
      res.sent + res.failed = res.total ∧
      res.total = (s.leads.filter (fun l => s.selectedLeadIds.contains l.id)).length := by
  have hlen : ¬ s.selectedLeadIds.length = 0 := by
    simpa [List.length_eq_zero] using h
  rw [runBatch_eq env s hlen]
  refine ⟨_, rfl, ?_, rfl⟩
  simpa using runLeads_tally env
    (s.leads.filter (fun l => s.selectedLeadIds.contains l.id)).length
    (s.leads.filter (fun l => s.selectedLeadIds.contains l.id)) s.leads 0 0

/-- Witness for C1: the two-lead scenario batch. -/
theorem handleBatchSend_tally_witness :
    ∃ res : BatchResults,
      (handleBatchSend scenarioEnv scenarioState).1.batchResults = some res ∧
      res.sent + res.failed = res.total ∧
      res.total = (scenarioState.leads.filter
        (fun l => scenarioState.selectedLeadIds.contains l.id)).length :=
  handleBatchSend_tally scenarioEnv scenarioState (by decide)

theorem sendCall_not_mem_leadEvents (env : BatchEnv) (X : Nat) (l : Lead)
    (h : env.previewOf X = none ∨ env.previewOf X = some []) :
    BatchEvent.sendCall X ∉ leadEvents env l := by
  unfold leadEvents
  by_cases hid : l.id = X
  · rw [hid]
    rcases h with h | h <;> simp [h]
  · cases hp : env.previewOf l.id with
    | none => simp
    | some vs =>
        cases vs with
        | nil => simp
        | cons v vs =>
            intro hmem
            simp only [List.mem_cons, List.not_mem_nil, or_false] at hmem
            rcases hmem with hmem | hmem
            · exact BatchEvent.noConfusion hmem
            · exact hid (BatchEvent.sendCall.inj hmem).symm

theorem leadStatus_failed_of_gen_failure (env : BatchEnv) (l : Lead)
    (h : env.previewOf l.id = none ∨ env.previewOf l.id = some []) :
    leadStatus env l = "failed" := by
  rcases h with h | h <;> simp [leadStatus, leadOutcome, h]

/-- **C4**: if generation fails for a lead id (the preview call errors
out, or returns zero variants), the send step is never attempted for
that lead in the batch pass, the lead is never recorded as sent, and the
batch still records one outcome per selected lead (it proceeds to the
next lead). -/
theorem handleBatchSend_gen_failure_skips_send (env : BatchEnv) (s : BatchState) (X : Nat)
    (h : env.previewOf X = none ∨ env.previewOf X = some []) :
    BatchEvent.sendCall X ∉ (handleBatchSend env s).2.events ∧
    (X, "sent") ∉ (handleBatchSend env s).2.outcomes ∧
    (handleBatchSend env s).2.outcomes.length
      = (s.leads.filter (fun l => s.selectedLeadIds.contains l.id)).length := by
  by_cases hlen : s.selectedLeadIds.length = 0
  · have hnil : s.selectedLeadIds = [] := List.length_eq_zero.mp hlen
    simp [handleBatchSend, hlen, hnil]
  · rw [runBatch_eq env s hlen]
    unfold runBatch
    refine ⟨?_, ?_, ?_⟩
    · show BatchEvent.sendCall X ∉ (runLeads env _ s.leads 0 0 _).events
      rw [runLeads_events]
      intro hmem
      rcases List.mem_flatMap.mp hmem with ⟨l, _, hev⟩
      exact sendCall_not_mem_leadEvents env X l h hev
    · show (X, "sent") ∉ (runLeads env _ s.leads 0 0 _).outcomes
      rw [runLeads_outcomes]
      intro hmem
      rcases List.mem_map.mp hmem with ⟨l, _, heq⟩
      have hid : l.id = X := congrArg Prod.fst heq
      have hst : leadStatus env l = "sent" := congrArg Prod.snd heq
      rw [leadStatus_failed_of_gen_failure env l (by rw [hid]; exact h)] at hst
      exact absurd hst (by decide)
    · show (runLeads env _ s.leads 0 0 _).outcomes.length = _
      rw [runLeads_outcomes, List.length_map]

/-- Witness for C4: lead 1's generation errors out while lead 2
generates and sends; no send call for id 1 is issued. -/
theorem handleBatchSend_gen_failure_skips_send_witness :
    BatchEvent.sendCall 1 ∉ (handleBatchSend
        { previewOf := fun i => if i = 1 then none else some [scenarioVariant],
          sendOf := fun _ => some { ok := some true, status := none } }
        scenarioState).2.events ∧
    (1, "sent") ∉ (handleBatchSend
        { previewOf := fun i => if i = 1 then none else some [scenarioVariant],
          sendOf := fun _ => some { ok := some true, status := none } }
        scenarioState).2.outcomes ∧
    (handleBatchSend
        { previewOf := fun i => if i = 1 then none else some [scenarioVariant],
          sendOf := fun _ => some { ok := some true, status := none } }
        scenarioState).2.outcomes.length
      = (scenarioState.leads.filter
          (fun l => scenarioState.selectedLeadIds.contains l.id)).length :=
  handleBatchSend_gen_failure_skips_send
    { previewOf := fun i => if i = 1 then none else some [scenarioVariant],
      sendOf := fun _ => some { ok := some true, status := none } }
    scenarioState 1 (Or.inl rfl)

/-- Counterexample to C5 as stated: the 2xx payload `{status: ""}` has a
status field that is present and not equal to `"success"`, so by the
claim's classification it signals failure; yet the code classifies this
send as a success, because the JS truthiness test
`sendData.status && sendData.status !== "success"` treats the empty
string as absent. -/
theorem sendSuccess_claim_counterexample :
    sendSuccess (some { ok := none, status := some "" }) = true ∧
    claimSignalsFailure { ok := none, status := some "" } = true := by
  exact ⟨rfl, rfl⟩

/-- **C5 (amended)**: a send is classified as success iff the transport
call succeeded and the payload does not signal failure, where signalling
failure means an `ok` field equal to false, or a status field that is
present, *non-empty*, and not equal to `"success"`; every other outcome
counts the lead as failed.  The claim's concrete scenario holds: leads
1 and 2, one generated variant each, send OK for lead 1 and `{ok:false}`
for lead 2, give tally `{sent:1, failed:1, total:2}` with lead 1 status
`"sent"` and lead 2 status `"failed"`. -/
theorem sendSuccess_amended :
    (∀ r : Option SendPayload,
        sendSuccess r = true ↔ ∃ p, r = some p ∧ amendedSignalsFailure p = false) ∧
    (handleBatchSend scenarioEnv scenarioState).1.batchResults
        = some { sent := 1, failed := 1, total := 2 } ∧
    (handleBatchSend scenarioEnv scenarioState).1.leads
        = [{ scenarioLead1 with status := some "sent" },
           { scenarioLead2 with status := some "failed" }] := by
  refine ⟨?_, by decide, by decide⟩
  intro r
  cases r with
  | none => simp [sendSuccess]
  | some p =>
      cases p with
      | mk okf stf =>
          simp only [sendSuccess, amendedSignalsFailure, Option.some.injEq]
          cases stf <;> cases okf <;> simp [statusSignalsFailure] <;> tauto

theorem forall2_refl {α : Type} {R : α → α → Prop} (hR : ∀ a, R a a) :
    ∀ L : List α, List.Forall₂ R L L := by
  intro L
  induction L with
  | nil => exact List.Forall₂.nil
  | cons a L ih => exact List.Forall₂.cons (hR a) ih

theorem outcomes_filter_frame (env1 env2 : BatchEnv) (X : Nat)
    (henv : ∀ y, y ≠ X → env1.previewOf y = env2.previewOf y ∧ env1.sendOf y = env2.sendOf y) :
    ∀ sel : List Lead,
      (sel.map (fun l => (l.id, leadStatus env1 l))).filter (fun pr => pr.1 != X)
        = (sel.map (fun l => (l.id, leadStatus env2 l))).filter (fun pr => pr.1 != X) := by
  intro sel
  induction sel with
  | nil => rfl
  | cons l rest ih =>
      simp only [List.map_cons, List.filter_cons]
      by_cases hX : l.id = X
      · simp [hX, ih]
      · have hst := leadStatus_congr env1 env2 l (henv l.id hX).1 (henv l.id hX).2
        simp [hX, hst, ih]

/-- **C6**: per-lead outcomes are recorded in the same order as the
selected-lead list, and one lead's backend behavior does not affect any
other lead: for two environments agreeing on every lead id other than
`X`, the recorded outcomes for ids other than `X` coincide, the final
lead rows with id other than `X` coincide (row order and ids are always
preserved), and rows whose id is not among the selected leads are left
entirely unchanged. -/
theorem handleBatchSend_order_and_frame (env1 env2 : BatchEnv) (s : BatchState) (X : Nat)
    (henv : ∀ y, y ≠ X → env1.previewOf y = env2.previewOf y ∧ env1.sendOf y = env2.sendOf y) :
    (handleBatchSend env1 s).2.outcomes.map Prod.fst
        = (s.leads.filter (fun l => s.selectedLeadIds.contains l.id)).map Lead.id
    ∧ (handleBatchSend env1 s).2.outcomes.filter (fun pr => pr.1 != X)
        = (handleBatchSend env2 s).2.outcomes.filter (fun pr => pr.1 != X)
    ∧ List.Forall₂ (fun a b => a.id = b.id ∧ (a.id ≠ X → a = b))
        (handleBatchSend env1 s).1.leads (handleBatchSend env2 s).1.leads
    ∧ List.Forall₂ (fun a b =>
          a.id ∉ (s.leads.filter (fun l => s.selectedLeadIds.contains l.id)).map Lead.id → a = b)
        s.leads (handleBatchSend env1 s).1.leads := by
  by_cases hlen : s.selectedLeadIds.length = 0
  · have hnil : s.selectedLeadIds = [] := List.length_eq_zero.mp hlen
    have h1 : (handleBatchSend env1 s).1.leads = s.leads := by
      simp [handleBatchSend, hlen]
    have h2 : (handleBatchSend env2 s).1.leads = s.leads := by
      simp [handleBatchSend, hlen]
    refine ⟨by simp [handleBatchSend, hlen, hnil], by simp [handleBatchSend, hlen], ?_, ?_⟩
    · rw [h1, h2]
      exact forall2_refl (fun a => ⟨rfl, fun _ => rfl⟩) s.leads
    · rw [h1]
      exact forall2_refl (fun a _ => rfl) s.leads
  · rw [runBatch_eq env1 s hlen, runBatch_eq env2 s hlen]
    unfold runBatch
    refine ⟨?_, ?_, ?_, ?_⟩
    · show (runLeads env1 _ s.leads 0 0 _).outcomes.map Prod.fst = _
      rw [runLeads_outcomes, List.map_map]
      rfl
    · show (runLeads env1 _ s.leads 0 0 _).outcomes.filter _
          = (runLeads env2 _ s.leads 0 0 _).outcomes.filter _
      rw [runLeads_outcomes, runLeads_outcomes]
      exact outcomes_filter_frame env1 env2 X henv _
    · show List.Forall₂ _ (runLeads env1 _ s.leads 0 0 _).leads
          (runLeads env2 _ s.leads 0 0 _).leads
      rw [runLeads_leads, runLeads_leads]
      refine forall2_map_map _ _ s.leads (fun a _ => ⟨?_, ?_⟩)
      · rw [applySel_id, applySel_id]
      · intro ha
        rw [applySel_id] at ha
        exact applySel_frame env1 env2 X henv _ a ha
    · show List.Forall₂ _ s.leads (runLeads env1 _ s.leads 0 0 _).leads
      rw [runLeads_leads]
      refine forall2_id_map _ s.leads (fun a _ ha => ?_)
      exact (applySel_untouched env1 _ a ha).symm

/-- Witness for C6: leads A, B, C with B's generation failing in one
environment and succeeding in the other. -/
theorem handleBatchSend_order_and_frame_witness :
    (handleBatchSend frameEnvDrop frameState).2.outcomes.map Prod.fst
        = (frameState.leads.filter
            (fun l => frameState.selectedLeadIds.contains l.id)).map Lead.id
    ∧ (handleBatchSend frameEnvDrop frameState).2.outcomes.filter (fun pr => pr.1 != 2)
        = (handleBatchSend frameEnvOk frameState).2.outcomes.filter (fun pr => pr.1 != 2)
    ∧ List.Forall₂ (fun a b => a.id = b.id ∧ (a.id ≠ 2 → a = b))
        (handleBatchSend frameEnvDrop frameState).1.leads
        (handleBatchSend frameEnvOk frameState).1.leads
    ∧ List.Forall₂ (fun a b =>
          a.id ∉ (frameState.leads.filter
            (fun l => frameState.selectedLeadIds.contains l.id)).map Lead.id → a = b)
        frameState.leads (handleBatchSend frameEnvDrop frameState).1.leads :=
  handleBatchSend_order_and_frame frameEnvDrop frameEnvOk frameState 2
    (fun y hy => ⟨by simp [frameEnvDrop, frameEnvOk, hy], rfl⟩)

/-- Counterexample to C8 as stated: with query parameter
`variants=-0.5` (JS `Number` gives `-0.5`, and `Math.min(-0.5, 5)` keeps
it), the route forwards `variants = -0.5`, which is neither an integer
(its denominator is 2) nor within the 1–5 range: the code caps the value
above at 5 but enforces no integrality and no lower bound. -/
theorem previewBody_variants_claim_counterexample :
    (previewBackendBody none none (some "-0.5") none).variants = some (-(1/2) : ℚ) ∧
    ¬ ((-(1/2) : ℚ).den = 1 ∧ 1 ≤ (-(1/2) : ℚ) ∧ (-(1/2) : ℚ) ≤ 5) := by
  constructor
  · show jsMin (jsNumber "-0.5") 5 = some (-(1/2))
    have hn : jsNumber "-0.5" = some (-(1/2)) := by
      simp [jsNumber, jsUnsigned, digitsVal, List.span, List.span.loop]
      norm_num
    rw [hn]
    show some (if (-(1/2) : ℚ) ≤ 5 then (-(1/2) : ℚ) else 5) = some (-(1/2))
    rw [if_pos (by norm_num)]
  · intro hc
    have hd : (-(1/2) : ℚ).den = 1 := hc.1
    norm_num at hd

/-- **C8 (amended)**: the `variants` value forwarded to `/generate` is
`Math.min(Number(variantsParam), 5)`: whenever it is a number at all it
is at most 5; no integrality, and no lower bound of 1, is enforced. -/
theorem previewBody_variants_amended (idParam toneParam variantsParam creativityParam :
      Option String) (q : ℚ)
    (h : (previewBackendBody idParam toneParam variantsParam creativityParam).variants
        = some q) :
    q ≤ 5 := by
  have h' : jsMin (jsNumber (variantsParam.getD "3")) 5 = some q := h
  unfold jsMin at h'
  cases hn : jsNumber (variantsParam.getD "3") with
  | none => rw [hn] at h'; cases h'
  | some x =>
      rw [hn] at h'
      have hx : (if x ≤ 5 then x else 5) = q := Option.some.inj h'
      by_cases hle : x ≤ 5
      · rw [if_pos hle] at hx; rw [← hx]; exact hle
      · rw [if_neg hle] at hx; rw [← hx]

/-- Witness for C8 (amended): the default query (`variants=3`) forwards
the value 3 ≤ 5. -/
theorem previewBody_variants_amended_witness :
    (previewBackendBody none none (some "3") none).variants = some (3 : ℚ) ∧ (3 : ℚ) ≤ 5 := by
  have h3 : (previewBackendBody none none (some "3") none).variants = some (3 : ℚ) := by
    show jsMin (jsNumber "3") 5 = some 3
    have hn : jsNumber "3" = some 3 := by
      simp [jsNumber, jsUnsigned, digitsVal, List.span, List.span.loop]
    rw [hn]
    show some (if (3 : ℚ) ≤ 5 then (3 : ℚ) else 5) = some 3
    rw [if_pos (by norm_num)]
  exact ⟨h3, previewBody_variants_amended none none (some "3") none 3 h3⟩

end EmailAutomation
